import Mathlib

/-!  Verification of the TradeInsight ml-analytics core: the candlestick
pattern matchers, the pattern reliability scorer and the support/resistance
level clustering of `services/ml-analytics/models/pattern_detector.py`, and
the portfolio risk calculator of
`services/ml-analytics/models/risk_calculator.py`.

Python float literals and arithmetic are modelled as exact rational / real
arithmetic.  Quantities that the source obtains from square roots or
standard deviations live in `ℝ`.  Results of external library calls
(sklearn DBSCAN labels, numpy random draws, `np.linalg.cholesky`,
`scipy.stats.norm.ppf`) are modelled as explicit parameters of the
functions that consume them. -/

namespace TradeInsight

/-- One OHLCV candle: a row of the dataframe consumed by
`PatternDetectionModel`. -/
structure Candle where
  «open» : ℚ
  high : ℚ
  low : ℚ
  close : ℚ
  volume : ℚ
  deriving DecidableEq, Repr, Inhabited

/-- A detected pattern (the dict built by the candlestick detectors in
`pattern_detector.py`).  Timestamps (`data.index[i]`) are modelled by the
integer row index `i` itself, since a price series has unique ascending
timestamps. -/
structure Pattern where
  id : String
  «type» : String
  name : String
  start_time : ℕ
  end_time : ℕ
  confidence : ℚ
  signal : String
  description : String
  parameters : List (String × ℚ)
  deriving DecidableEq, Repr

/-- Condition tested by `_detect_engulfing_bullish` (lines 430-433) on the
adjacent pair `(prev_candle, curr_candle)`. -/
def bullish_engulfing_cond (prev_candle curr_candle : Candle) : Prop :=
  prev_candle.close < prev_candle.«open» ∧
  curr_candle.close > curr_candle.«open» ∧
  curr_candle.«open» < prev_candle.close ∧
  curr_candle.close > prev_candle.«open»

instance (p c : Candle) : Decidable (bullish_engulfing_cond p c) := by
  unfold bullish_engulfing_cond; infer_instance

/-- Condition tested by `_detect_engulfing_bearish` (lines 462-465). -/
def bearish_engulfing_cond (prev_candle curr_candle : Candle) : Prop :=
  prev_candle.close > prev_candle.«open» ∧
  curr_candle.close < curr_candle.«open» ∧
  curr_candle.«open» > prev_candle.close ∧
  curr_candle.close < prev_candle.«open»

instance (p c : Candle) : Decidable (bearish_engulfing_cond p c) := by
  unfold bearish_engulfing_cond; infer_instance

/-- The pattern dict appended by `_detect_engulfing_bullish` at index `i`. -/
def bullish_engulfing_pattern (prev_candle curr_candle : Candle) (i : ℕ) : Pattern :=
  { id := "bullish_engulfing_" ++ toString i
    «type» := "candlestick"
    name := "Bullish Engulfing"
    start_time := i - 1
    end_time := i
    confidence := 8/10
    signal := "bullish"
    description := "Strong bullish reversal pattern"
    parameters := [("engulfing_ratio",
      (curr_candle.close - curr_candle.«open») /
        (prev_candle.«open» - prev_candle.close))] }

/-- The pattern dict appended by `_detect_engulfing_bearish` at index `i`. -/
def bearish_engulfing_pattern (prev_candle curr_candle : Candle) (i : ℕ) : Pattern :=
  { id := "bearish_engulfing_" ++ toString i
    «type» := "candlestick"
    name := "Bearish Engulfing"
    start_time := i - 1
    end_time := i
    confidence := 8/10
    signal := "bearish"
    description := "Strong bearish reversal pattern"
    parameters := [("engulfing_ratio",
      (curr_candle.«open» - curr_candle.close) /
        (prev_candle.close - prev_candle.«open»))] }

/-- `_detect_engulfing_bullish` (lines 421-451): loop `for i in
range(1, len(data))`, emitting a pattern whenever the pair condition
holds. -/
def detect_engulfing_bullish (data : List Candle) : List Pattern :=
  (List.range' 1 (data.length - 1)).filterMap fun i =>
    let prev_candle := data.getD (i - 1) default
    let curr_candle := data.getD i default
    if bullish_engulfing_cond prev_candle curr_candle then
      some (bullish_engulfing_pattern prev_candle curr_candle i)
    else none

/-- `_detect_engulfing_bearish` (lines 453-483). -/
def detect_engulfing_bearish (data : List Candle) : List Pattern :=
  (List.range' 1 (data.length - 1)).filterMap fun i =>
    let prev_candle := data.getD (i - 1) default
    let curr_candle := data.getD i default
    if bearish_engulfing_cond prev_candle curr_candle then
      some (bearish_engulfing_pattern prev_candle curr_candle i)
    else none

/-- Condition tested by `_detect_hammer` (lines 370-371): small body, long
lower shadow, short upper shadow. -/
def hammer_cond (candle : Candle) : Prop :=
  let body_size := |candle.close - candle.«open»|
  let lower_shadow := min candle.«open» candle.close - candle.low
  let upper_shadow := candle.high - max candle.«open» candle.close
  body_size > 0 ∧ lower_shadow > 2 * body_size ∧
  upper_shadow < body_size ∧ lower_shadow > 6/10 * (candle.high - candle.low)

instance (c : Candle) : Decidable (hammer_cond c) := by
  unfold hammer_cond; infer_instance

/-- Condition tested by `_detect_shooting_star` (lines 401-402): small body,
long upper shadow, short lower shadow. -/
def shooting_star_cond (candle : Candle) : Prop :=
  let body_size := |candle.close - candle.«open»|
  let lower_shadow := min candle.«open» candle.close - candle.low
  let upper_shadow := candle.high - max candle.«open» candle.close
  body_size > 0 ∧ upper_shadow > 2 * body_size ∧
  lower_shadow < body_size ∧ upper_shadow > 6/10 * (candle.high - candle.low)

instance (c : Candle) : Decidable (shooting_star_cond c) := by
  unfold shooting_star_cond; infer_instance

/-- `_detect_hammer` (lines 359-388): one pattern per candle satisfying the
hammer condition. -/
def detect_hammer (data : List Candle) : List Pattern :=
  (List.range data.length).filterMap fun i =>
    let candle := data.getD i default
    if hammer_cond candle then
      some { id := "hammer_" ++ toString i
             «type» := "candlestick"
             name := "Hammer"
             start_time := i
             end_time := i
             confidence := 75/100
             signal := "bullish"
             description := "Potential bullish reversal pattern"
             parameters := [("lower_shadow_ratio",
               (min candle.«open» candle.close - candle.low) /
                 |candle.close - candle.«open»|)] }
    else none

/-- `_detect_shooting_star` (lines 390-419). -/
def detect_shooting_star (data : List Candle) : List Pattern :=
  (List.range data.length).filterMap fun i =>
    let candle := data.getD i default
    if shooting_star_cond candle then
      some { id := "shooting_star_" ++ toString i
             «type» := "candlestick"
             name := "Shooting Star"
             start_time := i
             end_time := i
             confidence := 75/100
             signal := "bearish"
             description := "Potential bearish reversal pattern"
             parameters := [("upper_shadow_ratio",
               (candle.high - max candle.«open» candle.close) /
                 |candle.close - candle.«open»|)] }
    else none

/-- `_check_volume_confirmation` (lines 563-566): the placeholder always
returns `0.1`. -/
def check_volume_confirmation : ℚ := 1/10

/-- `_analyze_market_context` (lines 568-571): the placeholder always
returns `1.0`. -/
def analyze_market_context : ℚ := 1

/-- `_check_pattern_completion` (lines 573-576): the placeholder always
returns `1.0`. -/
def check_pattern_completion : ℚ := 1

/-- The score computed for one pattern by `calculate_reliability`
(lines 535-561).  The price series enters the computation only through
whether a `volume` column exists, modelled by `has_volume`. -/
def reliability_score (has_volume : Bool) (confidence : ℚ) : ℚ :=
  let base_score := confidence
  let base_score :=
    if has_volume then base_score * (1 + check_volume_confirmation * (2/10))
    else base_score
  let base_score := base_score * analyze_market_context
  let base_score := base_score * check_pattern_completion
  min 1 base_score

/-- `calculate_reliability` (lines 535-561): reliability map keyed by
pattern id. -/
def calculate_reliability (has_volume : Bool) (patterns : List Pattern) :
    List (String × ℚ) :=
  patterns.map fun pattern => (pattern.id, reliability_score has_volume pattern.confidence)

/-!  Support/resistance level clustering (`_cluster_levels`, lines 251-275,
and `_detect_support_resistance`, lines 107-161).  The DBSCAN labelling
(`clustering.fit_predict`) is an external sklearn call; it is modelled by
an explicit label list (`-1` marks noise), one label per extracted level,
exactly the shape of the array the source reads back.  `np.mean` is exact
rational arithmetic; `np.std` (population standard deviation) needs a real
square root. -/

/-- `np.mean` of a list of price levels. -/
def listMean (xs : List ℚ) : ℚ := xs.sum / xs.length

/-- `np.std` of a list of price levels: population standard deviation. -/
noncomputable def listStd (xs : List ℚ) : ℝ :=
  Real.sqrt (((xs.map fun x => ((x : ℝ) - (listMean xs : ℚ))^2).sum) / xs.length)

/-- The points `levels[cluster_labels == cluster_id]` of one cluster. -/
def cluster_points (levels : List ℚ) (labels : List ℤ) (cluster_id : ℤ) : List ℚ :=
  (levels.zip labels).filterMap fun xl => if xl.2 = cluster_id then some xl.1 else none

/-- `_cluster_levels` (lines 251-275): for every non-noise cluster label
with at least two member points, emit `(level, strength, touches) =
(mean, size × std, size)`. -/
noncomputable def cluster_levels (levels : List ℚ) (labels : List ℤ) :
    List (ℚ × ℝ × ℕ) :=
  labels.dedup.filterMap fun cluster_id =>
    if cluster_id = -1 then none
    else
      let pts := cluster_points levels labels cluster_id
      if 2 ≤ pts.length then
        some (listMean pts, (pts.length : ℝ) * listStd pts, pts.length)
      else none

/-- A support/resistance pattern (the dict built in
`_detect_support_resistance`); only the fields derived from the cluster
are modelled (timestamps come from the peak indices of the excluded
scipy call). -/
structure SRPattern where
  name : String
  confidence : ℝ
  signal : String
  target_price : ℝ
  stop_loss : ℝ
  level : ℝ
  strength : ℝ
  touches : ℕ

/-- The resistance pattern built from one clustered level (lines 118-136). -/
noncomputable def resistance_pattern (level : ℚ) (strength : ℝ) (touches : ℕ) :
    SRPattern :=
  { name := "Resistance Level"
    confidence := min (9/10) (strength / 10)
    signal := "bearish"
    target_price := (level : ℝ)
    stop_loss := (level : ℝ) * (1005/1000)
    level := (level : ℝ)
    strength := strength
    touches := touches }

/-- The support pattern built from one clustered level (lines 139-159). -/
noncomputable def support_pattern (level : ℚ) (strength : ℝ) (touches : ℕ) :
    SRPattern :=
  { name := "Support Level"
    confidence := min (9/10) (strength / 10)
    signal := "bullish"
    target_price := (level : ℝ)
    stop_loss := (level : ℝ) * (995/1000)
    level := (level : ℝ)
    strength := strength
    touches := touches }

/-- `_detect_support_resistance` (lines 107-161), parametrised by the
extracted significant high/low values (the scipy peak finder is an
excluded external) and their DBSCAN labels.  The source guards each
clustering call with `len(highs) > 2` / `len(lows) > 2`. -/
noncomputable def detect_support_resistance (high_values low_values : List ℚ)
    (high_labels low_labels : List ℤ) : List SRPattern :=
  (if 2 < high_values.length then
    (cluster_levels high_values high_labels).map fun lst =>
      resistance_pattern lst.1 lst.2.1 lst.2.2
  else [])
  ++
  (if 2 < low_values.length then
    (cluster_levels low_values low_labels).map fun lst =>
      support_pattern lst.1 lst.2.1 lst.2.2
  else [])

/-!  The risk calculator (`risk_calculator.py`).  A portfolio is a list of
positions; prices, sizes, volatilities and correlations are rationals,
computations involving `np.sqrt` live in `ℝ`.  Division follows Lean's
`x / 0 = 0` convention (the source only divides by nonzero quantities on
the paths covered by the claims). -/

/-- One portfolio entry (`symbol`, `position`, `entry_price`). -/
structure Position where
  symbol : String
  position : ℚ
  entry_price : ℚ
  deriving DecidableEq, Repr, Inhabited

/-- `self.default_volatilities` (lines 59-70) with the `.get(symbol, 0.10)`
fallback used at every lookup site. -/
def default_volatilities (symbol : String) : ℚ :=
  if symbol = "EURUSD" then 8/100
  else if symbol = "GBPUSD" then 10/100
  else if symbol = "USDJPY" then 9/100
  else if symbol = "USDCHF" then 8/100
  else if symbol = "AUDUSD" then 12/100
  else if symbol = "USDCAD" then 9/100
  else if symbol = "NZDUSD" then 13/100
  else if symbol = "EURJPY" then 11/100
  else if symbol = "GBPJPY" then 14/100
  else if symbol = "CHFJPY" then 11/100
  else 10/100

/-- `self.default_correlations` (lines 44-56): the keyed pairs, `none` for
pairs absent from the dict. -/
def default_correlations (pair : String × String) : Option ℚ :=
  if pair = ("EURUSD", "GBPUSD") then some (7/10)
  else if pair = ("EURUSD", "USDJPY") then some (-3/10)
  else if pair = ("EURUSD", "USDCHF") then some (-8/10)
  else if pair = ("EURUSD", "AUDUSD") then some (6/10)
  else if pair = ("EURUSD", "USDCAD") then some (-4/10)
  else if pair = ("GBPUSD", "USDJPY") then some (-2/10)
  else if pair = ("GBPUSD", "USDCHF") then some (-6/10)
  else if pair = ("GBPUSD", "AUDUSD") then some (8/10)
  else if pair = ("USDJPY", "USDCHF") then some (4/10)
  else if pair = ("USDJPY", "AUDUSD") then some (-1/10)
  else if pair = ("USDCHF", "AUDUSD") then some (-5/10)
  else none

/-- `_get_correlation` (lines 501-516): `1.0` for identical symbols, then
the dict lookup in both orders, defaulting to `0.0`. -/
def get_correlation (symbol1 symbol2 : String) : ℚ :=
  if symbol1 = symbol2 then 1
  else
    match default_correlations (symbol1, symbol2) with
    | some corr => corr
    | none =>
      match default_correlations (symbol2, symbol1) with
      | some corr => corr
      | none => 0

/-- The daily volatility `volatility / np.sqrt(252)` computed from the
per-symbol annualized volatility at every use site. -/
noncomputable def daily_vol (symbol : String) : ℝ :=
  (default_volatilities symbol : ℚ) / Real.sqrt 252

/-- The notional position value `abs(position) * entry_price` used by the
VaR methods. -/
def position_value (p : Position) : ℚ :=
  |p.position| * p.entry_price

/-- The individual variance term `(position_value * daily_vol) ** 2` of
`_calculate_parametric_var` (lines 301-311). -/
noncomputable def position_variance_term (p : Position) : ℝ :=
  ((position_value p : ℚ) * daily_vol p.symbol)^2

/-- The `correlation_adjustment` double loop of `_calculate_parametric_var`
(lines 314-326): every ordered pair `i ≠ j` contributes
`2 * corr * vol1 * vol2 * value1 * value2` with daily volatilities. -/
noncomputable def correlation_adjustment (portfolio : List Position) : ℝ :=
  ∑ i in Finset.range portfolio.length, ∑ j in Finset.range portfolio.length,
    if i ≠ j then
      2 * (get_correlation (portfolio.getD i default).symbol
            (portfolio.getD j default).symbol : ℚ)
        * daily_vol (portfolio.getD i default).symbol
        * daily_vol (portfolio.getD j default).symbol
        * (position_value (portfolio.getD i default) : ℚ)
        * (position_value (portfolio.getD j default) : ℚ)
    else 0

/-- `_calculate_parametric_var` (lines 293-342), with the z-score
`stats.norm.ppf(confidence_level)` — an external scipy quantile — passed
in as `z_score`.  The source takes `sqrt(max(0, variance))`, scales by
`sqrt(timeframe_days)` and multiplies by the z-score. -/
noncomputable def calculate_parametric_var (portfolio : List Position)
    (timeframe_days : ℕ) (z_score : ℝ) : ℝ :=
  let portfolio_variance :=
    (portfolio.map position_variance_term).sum + correlation_adjustment portfolio
  let portfolio_std := Real.sqrt (max 0 portfolio_variance) * Real.sqrt timeframe_days
  portfolio_std * z_score

/-- `_calculate_position_correlation_risk` (lines 518-528): sum of absolute
correlations to every *other-symbol* position, normalized by the full
portfolio size. -/
def calculate_position_correlation_risk (symbol : String)
    (portfolio : List Position) : ℚ :=
  let correlation_risk :=
    ((portfolio.filter fun p => p.symbol ≠ symbol).map fun p =>
      |get_correlation symbol p.symbol|).sum
  if portfolio = [] then 0 else correlation_risk / portfolio.length

/-- The per-position analysis record built by `_analyze_positions`
(lines 165-204). -/
structure PositionAnalysis where
  symbol : String
  position : ℚ
  entry_price : ℚ
  current_price : ℝ
  market_value : ℝ
  unrealized_pnl : ℝ
  position_var : ℝ
  risk_contribution : ℝ
  correlation_risk : ℚ

instance : Inhabited PositionAnalysis :=
  ⟨⟨"", 0, 0, 0, 0, 0, 0, 0, 0⟩⟩

/-- `_analyze_positions` (lines 165-204).  The simulated current prices
(`_get_current_price` draws a random shock per position) are passed in as
the list `current_prices`, and `stats.norm.ppf(0.95)` as `z95`. -/
noncomputable def analyze_positions (portfolio : List Position)
    (current_prices : List ℝ) (z95 : ℝ) : List PositionAnalysis :=
  (portfolio.zip current_prices).map fun pc =>
    let p := pc.1
    let current_price := pc.2
    let market_value := |(p.position : ℝ)| * current_price
    let unrealized_pnl := (p.position : ℝ) * (current_price - (p.entry_price : ℚ))
    let daily_volatility := daily_vol p.symbol
    let position_var := market_value * daily_volatility * z95
    let risk_contribution := position_var / portfolio.length
    { symbol := p.symbol
      position := p.position
      entry_price := p.entry_price
      current_price := current_price
      market_value := market_value
      unrealized_pnl := unrealized_pnl
      position_var := position_var
      risk_contribution := risk_contribution
      correlation_risk := calculate_position_correlation_risk p.symbol portfolio }

/-- The correlation matrix built by `_generate_correlated_returns`
(lines 391-398): identity, then both `[i, j]` and `[j, i]` set to the
pairwise correlation for every `i < j`. -/
def correlation_matrix (portfolio : List Position) :
    Matrix (Fin portfolio.length) (Fin portfolio.length) ℚ :=
  Matrix.of fun i j =>
    if i = j then 1
    else if (i : ℕ) < (j : ℕ) then
      get_correlation (portfolio.get i).symbol (portfolio.get j).symbol
    else
      get_correlation (portfolio.get j).symbol (portfolio.get i).symbol

/-- `_generate_correlated_returns` (lines 386-422).  The independent
standard-normal draws and the outcome of `np.linalg.cholesky` (an external
numpy call: `some` factor on success, `none` when the matrix is not
positive definite and `LinAlgError` is caught) are passed in explicitly.
On `none` the routine falls back to the independent draws; either way each
component is then scaled by the symbol's daily volatility. -/
noncomputable def generate_correlated_returns (portfolio : List Position)
    (chol : Option (Matrix (Fin portfolio.length) (Fin portfolio.length) ℝ))
    (independent_returns : Fin portfolio.length → ℝ) :
    Fin portfolio.length → ℝ :=
  let correlated_returns :=
    match chol with
    | some chol_matrix => chol_matrix.mulVec independent_returns
    | none => independent_returns
  fun i => correlated_returns i * daily_vol (portfolio.get i).symbol

/-- The scenario result dict (`{probability, expected_loss,
worst_case_loss, recovery_time, affected_positions}`).  Each affected
position is modelled as its symbol paired with the scenario's per-position
numeric impact. -/
structure ScenarioResult where
  probability : ℚ
  expected_loss : ℝ
  worst_case_loss : ℝ
  recovery_time : ℕ
  affected_positions : List (String × ℝ)

/-- The per-position expected loss of `_scenario_market_crash`
(lines 575-579): long positions lose `value * |severity|`, short positions
gain (`value * severity`, negative). -/
def crash_expected_loss (p : Position) : ℚ :=
  if p.position > 0 then position_value p * |(-4 : ℚ)/10|
  else position_value p * ((-4 : ℚ)/10)

/-- `_scenario_market_crash` (lines 556-607). -/
def scenario_market_crash (portfolio : List Position) : ScenarioResult :=
  { probability := 5/100
    expected_loss := ((portfolio.map crash_expected_loss).sum : ℚ)
    worst_case_loss := ((portfolio.map fun p => crash_expected_loss p * (15/10)).sum : ℚ)
    recovery_time := 180
    affected_positions := (portfolio.filterMap fun p =>
      if crash_expected_loss p > 0 then
        some (p.symbol, ((crash_expected_loss p : ℚ) : ℝ))
      else none) }

/-- The monthly VaR of one position under `_scenario_high_volatility`
(lines 625-631): `value * (2.5 * vol / sqrt 252) * 1.65 * sqrt 22`. -/
noncomputable def high_vol_monthly_var (p : Position) : ℝ :=
  (position_value p : ℚ) *
    ((default_volatilities p.symbol * (25/10) : ℚ) / Real.sqrt 252) * (165/100) *
    Real.sqrt 22

/-- `_scenario_high_volatility` (lines 609-652). -/
noncomputable def scenario_high_volatility (portfolio : List Position) : ScenarioResult :=
  { probability := 15/100
    expected_loss := (portfolio.map high_vol_monthly_var).sum
    worst_case_loss := (portfolio.map fun p => high_vol_monthly_var p * (15/10)).sum
    recovery_time := 60
    affected_positions := portfolio.map fun p => (p.symbol, high_vol_monthly_var p) }

/-- `_scenario_trend_reversal` (lines 654-695): a 20% adverse move against
every position. -/
def scenario_trend_reversal (portfolio : List Position) : ScenarioResult :=
  { probability := 25/100
    expected_loss := ((portfolio.map fun p => position_value p * (2/10)).sum : ℚ)
    worst_case_loss :=
      ((portfolio.map fun p => position_value p * (2/10) * (13/10)).sum : ℚ)
    recovery_time := 90
    affected_positions := portfolio.map fun p =>
      (p.symbol, ((position_value p * (2/10) : ℚ) : ℝ)) }

/-- The weighted portfolio variance of `_calculate_portfolio_volatility`
(lines 736-783), exact in `ℚ`: individual `(weight * vol) ** 2` terms plus,
when requested and for more than one position, pairwise
`weight1 * weight2 * vol1 * vol2 * corr` terms over ordered pairs. -/
def portfolio_weighted_variance (portfolio : List Position)
    (use_correlations : Bool) : ℚ :=
  let total_value := (portfolio.map fun p => position_value p).sum
  let individual :=
    (portfolio.map fun p =>
      (position_value p / total_value * default_volatilities p.symbol)^2).sum
  let correlation_terms : ℚ :=
    if use_correlations ∧ 1 < portfolio.length then
      ∑ i : Fin portfolio.length, ∑ j : Fin portfolio.length,
        if i ≠ j then
          (position_value (portfolio.get i) / total_value) *
          (position_value (portfolio.get j) / total_value) *
          default_volatilities (portfolio.get i).symbol *
          default_volatilities (portfolio.get j).symbol *
          get_correlation (portfolio.get i).symbol (portfolio.get j).symbol
        else 0
    else 0
  individual + correlation_terms

/-- `_calculate_portfolio_volatility` (lines 736-783). -/
noncomputable def calculate_portfolio_volatility (portfolio : List Position)
    (use_correlations : Bool) : ℝ :=
  if portfolio = [] then 0
  else Real.sqrt (max 0 (portfolio_weighted_variance portfolio use_correlations : ℚ))

/-- `_scenario_correlation_breakdown` (lines 697-734). -/
noncomputable def scenario_correlation_breakdown (portfolio : List Position) :
    ScenarioResult :=
  let current_portfolio_vol := calculate_portfolio_volatility portfolio true
  let no_diversification_vol := calculate_portfolio_volatility portfolio false
  let diversification_loss := no_diversification_vol - current_portfolio_vol
  let expected_loss := 10000 * diversification_loss * (165/100)
  { probability := 10/100
    expected_loss := expected_loss
    worst_case_loss := expected_loss * 2
    recovery_time := 120
    affected_positions := portfolio.map fun p => (p.symbol, diversification_loss) }

/-- `run_scenario_analysis` (lines 129-163): dispatch on the four known
scenario names; unknown names are logged and skipped (`continue`), adding
no entry. -/
noncomputable def run_scenario_analysis (portfolio : List Position)
    (scenarios : List String) : List (String × ScenarioResult) :=
  scenarios.filterMap fun scenario_name =>
    if scenario_name = "market_crash" then
      some (scenario_name, scenario_market_crash portfolio)
    else if scenario_name = "high_volatility" then
      some (scenario_name, scenario_high_volatility portfolio)
    else if scenario_name = "trend_reversal" then
      some (scenario_name, scenario_trend_reversal portfolio)
    else if scenario_name = "correlation_breakdown" then
      some (scenario_name, scenario_correlation_breakdown portfolio)
    else none

/-- The comprehensive risk report returned by `calculate_portfolio_risk`
(lines 110-123) and by `_get_empty_risk_result` (lines 826-841). -/
structure RiskResult where
  net_exposure : ℝ
  gross_exposure : ℝ
  leverage : ℝ
  var : ℝ
  expected_shortfall : ℝ
  max_drawdown : ℝ
  sharpe_ratio : ℝ
  sortino_ratio : ℝ
  calmar_ratio : ℝ
  volatility_annual : ℝ
  positions : List PositionAnalysis
  recommendations : List String

/-- `_get_empty_risk_result` (lines 826-841): every numeric metric `0.0`,
empty `positions` and `recommendations`. -/
def get_empty_risk_result : RiskResult :=
  { net_exposure := 0
    gross_exposure := 0
    leverage := 0
    var := 0
    expected_shortfall := 0
    max_drawdown := 0
    sharpe_ratio := 0
    sortino_ratio := 0
    calmar_ratio := 0
    volatility_annual := 0
    positions := []
    recommendations := [] }

/-- `calculate_portfolio_risk` (lines 72-127): inside one `try`, an empty
portfolio short-circuits to the empty result; otherwise the report is
assembled by the internal pipeline, whose outcome (it depends on random
draws and external numerics) is abstracted as `body` — `Except.error`
standing for a raised exception, which the top-level handler converts to
the empty result. -/
def calculate_portfolio_risk (portfolio : List Position)
    (timeframe : String) (confidence_level : ℚ)
    (body : Except String RiskResult) : RiskResult :=
  if portfolio = [] then get_empty_risk_result
  else
    match body with
    | Except.ok result => result
    | Except.error _ => get_empty_risk_result

/-!  Helper lemmas. -/

/-- Inversion for membership in the bullish-engulfing detector output. -/
theorem mem_detect_engulfing_bullish {data : List Candle} {p : Pattern}
    (hp : p ∈ detect_engulfing_bullish data) :
    ∃ i, 1 ≤ i ∧ i < data.length ∧
      bullish_engulfing_cond (data.getD (i - 1) default) (data.getD i default) ∧
      p = bullish_engulfing_pattern (data.getD (i - 1) default) (data.getD i default) i := by
  unfold detect_engulfing_bullish at hp
  rw [List.mem_filterMap] at hp
  obtain ⟨a, ha, hfa⟩ := hp
  rw [List.mem_range'_1] at ha
  dsimp only at hfa
  split_ifs at hfa with hc
  · exact ⟨a, ha.1, by omega, hc, (Option.some.inj hfa).symm⟩

/-- Inversion for membership in the bearish-engulfing detector output. -/
theorem mem_detect_engulfing_bearish {data : List Candle} {p : Pattern}
    (hp : p ∈ detect_engulfing_bearish data) :
    ∃ i, 1 ≤ i ∧ i < data.length ∧
      bearish_engulfing_cond (data.getD (i - 1) default) (data.getD i default) ∧
      p = bearish_engulfing_pattern (data.getD (i - 1) default) (data.getD i default) i := by
  unfold detect_engulfing_bearish at hp
  rw [List.mem_filterMap] at hp
  obtain ⟨a, ha, hfa⟩ := hp
  rw [List.mem_range'_1] at ha
  dsimp only at hfa
  split_ifs at hfa with hc
  · exact ⟨a, ha.1, by omega, hc, (Option.some.inj hfa).symm⟩

/-- A concrete three-candle series used by witnesses: a bullish engulfing
pair at index 1 followed by a bearish engulfing pair at index 2. -/
def witnessData : List Candle :=
  [{ «open» := 3, high := 3, low := 1, close := 1, volume := 0 },
   { «open» := 0, high := 4, low := 0, close := 4, volume := 0 },
   { «open» := 5, high := 5, low := -1, close := -1, volume := 0 }]

/-- A concrete pattern of confidence `0.5` used by witnesses and
counterexamples. -/
def samplePattern : Pattern :=
  { id := "doji_0", «type» := "candlestick", name := "Doji",
    start_time := 0, end_time := 0, confidence := 1/2,
    signal := "neutral", description := "", parameters := [] }

/-!  Claim theorems. -/

/-- C5: on every adjacent candle pair the Bullish Engulfing matcher fires
exactly when the previous candle is bearish, the current candle is bullish
and the current body strictly contains the previous body; and on no candle
pair do the bullish and bearish engulfing matchers both fire. -/
theorem C5_engulfing_characterisation_and_exclusivity :
    (∀ (data : List Candle) (i : ℕ), 1 ≤ i → i < data.length →
      (bullish_engulfing_pattern (data.getD (i - 1) default) (data.getD i default) i ∈
          detect_engulfing_bullish data ↔
        (data.getD (i - 1) default).close < (data.getD (i - 1) default).«open» ∧
        (data.getD i default).close > (data.getD i default).«open» ∧
        (data.getD i default).«open» < (data.getD (i - 1) default).close ∧
        (data.getD i default).close > (data.getD (i - 1) default).«open»)) ∧
    (∀ (data : List Candle) (p q : Pattern), p ∈ detect_engulfing_bullish data →
      q ∈ detect_engulfing_bearish data → p.end_time ≠ q.end_time) := by
  constructor
  · intro data i h1 h2
    constructor
    · intro hp
      obtain ⟨a, _, _, hc, hpa⟩ := mem_detect_engulfing_bullish hp
      have hai : i = a := congrArg Pattern.end_time hpa
      rw [← hai] at hc
      exact hc
    · intro hc
      unfold detect_engulfing_bullish
      rw [List.mem_filterMap]
      refine ⟨i, ?_, ?_⟩
      · rw [List.mem_range'_1]; omega
      · dsimp only
        have hc' : bullish_engulfing_cond (data.getD (i - 1) default)
            (data.getD i default) := hc
        rw [if_pos hc']
  · intro data p q hp hq hpq
    obtain ⟨a, _, _, hca, hpa⟩ := mem_detect_engulfing_bullish hp
    obtain ⟨b, _, _, hcb, hqb⟩ := mem_detect_engulfing_bearish hq
    have hpe : p.end_time = a := by rw [hpa]; rfl
    have hqe : q.end_time = b := by rw [hqb]; rfl
    have hab : a = b := by omega
    rw [← hab] at hcb
    exact absurd hca.1 (not_lt.mpr (le_of_lt hcb.1))

/-- C5 witness: a concrete three-candle series containing a bullish
engulfing pair at index 1 and a bearish engulfing pair at index 2. -/
theorem C5_engulfing_characterisation_and_exclusivity_witness :
    (1 ≤ 1 ∧ 1 < witnessData.length ∧
      (bullish_engulfing_pattern (witnessData.getD 0 default)
          (witnessData.getD 1 default) 1 ∈ detect_engulfing_bullish witnessData ↔
        (witnessData.getD 0 default).close < (witnessData.getD 0 default).«open» ∧
        (witnessData.getD 1 default).close > (witnessData.getD 1 default).«open» ∧
        (witnessData.getD 1 default).«open» < (witnessData.getD 0 default).close ∧
        (witnessData.getD 1 default).close > (witnessData.getD 0 default).«open»)) ∧
    (bullish_engulfing_pattern (witnessData.getD 0 default) (witnessData.getD 1 default) 1 ∈
        detect_engulfing_bullish witnessData) ∧
    (bearish_engulfing_pattern (witnessData.getD 1 default) (witnessData.getD 2 default) 2 ∈
        detect_engulfing_bearish witnessData) ∧
    (bullish_engulfing_pattern (witnessData.getD 0 default)
        (witnessData.getD 1 default) 1).end_time ≠
      (bearish_engulfing_pattern (witnessData.getD 1 default)
        (witnessData.getD 2 default) 2).end_time := by
  have hiff :=
    C5_engulfing_characterisation_and_exclusivity.1 witnessData 1 (by decide) (by decide)
  have hbull : bullish_engulfing_pattern (witnessData.getD 0 default)
      (witnessData.getD 1 default) 1 ∈ detect_engulfing_bullish witnessData :=
    hiff.mpr (by decide)
  have hbearcond : bearish_engulfing_cond (witnessData.getD 1 default)
      (witnessData.getD 2 default) := by decide
  have hbear : bearish_engulfing_pattern (witnessData.getD 1 default)
      (witnessData.getD 2 default) 2 ∈ detect_engulfing_bearish witnessData := by
    unfold detect_engulfing_bearish
    rw [List.mem_filterMap]
    refine ⟨2, by decide, ?_⟩
    dsimp only
    rw [if_pos hbearcond]
  exact ⟨⟨le_refl 1, by decide, hiff⟩, hbull, hbear,
    C5_engulfing_characterisation_and_exclusivity.2 witnessData _ _ hbull hbear⟩

/-- C9: no single candle is matched by both the Hammer condition and the
Shooting Star condition — the lower shadow, the (required positive) body
and the upper shadow sum to the candle's range, so the two `> 0.6 × range`
shadow requirements cannot hold together. -/
theorem C9_hammer_shooting_star_exclusive (candle : Candle) :
    (decide (hammer_cond candle) && decide (shooting_star_cond candle)) = false := by
  by_contra h
  rw [Bool.not_eq_false, Bool.and_eq_true, decide_eq_true_eq, decide_eq_true_eq] at h
  obtain ⟨hh, hs⟩ := h
  unfold hammer_cond at hh
  unfold shooting_star_cond at hs
  obtain ⟨hb, hl2, _, hlr⟩ := hh
  obtain ⟨_, hu2, _, hur⟩ := hs
  have hkey : max candle.«open» candle.close - min candle.«open» candle.close =
      |candle.close - candle.«open»| := max_sub_min_eq_abs _ _
  linarith

/-- C2 counterexample: with a volume column present, a pattern of
confidence `0.5` scores `0.51 = 0.5 × 1.02`, not
`min 1 (0.5 × 1.1 × 1.0 × 1.0) = 0.55` as the claim's flat `1.1×` volume
factor would give. -/
theorem C2_counterexample :
    calculate_reliability true
      [samplePattern] =
      [("doji_0", 51/100)] ∧
    (51/100 : ℚ) ≠ min 1 ((1/2) * (11/10) * 1 * 1) := by
  constructor
  · unfold calculate_reliability reliability_score check_volume_confirmation
      analyze_market_context check_pattern_completion
    simp only [List.map_cons, List.map_nil, if_true]
    rw [min_eq_right (by norm_num [samplePattern])]
    norm_num [samplePattern]
  · rw [min_eq_right (by norm_num)]
    norm_num

/-- C2 amended: the reliability score equals the pattern's confidence
multiplied by a volume factor of `1.02 = 1 + 0.1 × 0.2` when the series
has a volume column (`1.0` otherwise), a `1.0` market-context factor and a
`1.0` completion factor, clamped above at `1.0`. -/
theorem C2_amended_reliability_formula (has_volume : Bool)
    (patterns : List Pattern) (p : Pattern) (hp : p ∈ patterns) :
    (p.id, min 1 (p.confidence * (if has_volume then 1 + (1/10) * (2/10) else 1)
        * analyze_market_context * check_pattern_completion)) ∈
      calculate_reliability has_volume patterns := by
  unfold calculate_reliability
  rw [List.mem_map]
  refine ⟨p, hp, ?_⟩
  unfold reliability_score check_volume_confirmation analyze_market_context
    check_pattern_completion
  cases has_volume <;> simp

/-- C2 amended witness at a concrete singleton pattern list. -/
theorem C2_amended_reliability_formula_witness :
    samplePattern ∈
      [samplePattern] ∧
    ((("doji_0" : String),
        min 1 ((1/2 : ℚ) * (if true then 1 + (1/10) * (2/10) else 1)
          * analyze_market_context * check_pattern_completion)) ∈
      calculate_reliability true
        [samplePattern]) :=
  ⟨List.mem_singleton.mpr rfl,
   C2_amended_reliability_formula true _ _ (List.mem_singleton.mpr rfl)⟩

/-- C8: every entry of the reliability map comes from a pattern of the
input list, and — for patterns whose confidence lies in `[0,1]` — is at
most `confidence × 1.1` and lies in `[0,1]`. -/
theorem C8_reliability_bounded (has_volume : Bool) (patterns : List Pattern)
    (hconf : ∀ p ∈ patterns, 0 ≤ p.confidence ∧ p.confidence ≤ 1) :
    ∀ pr ∈ calculate_reliability has_volume patterns,
      ∃ p ∈ patterns, pr.1 = p.id ∧
        pr.2 = reliability_score has_volume p.confidence ∧
        pr.2 ≤ p.confidence * (11/10) ∧ 0 ≤ pr.2 ∧ pr.2 ≤ 1 := by
  intro pr hpr
  unfold calculate_reliability at hpr
  rw [List.mem_map] at hpr
  obtain ⟨p, hp, hppr⟩ := hpr
  obtain ⟨h0, h1⟩ := hconf p hp
  subst hppr
  have hform : reliability_score has_volume p.confidence =
      min 1 (p.confidence * (if has_volume then (51/50 : ℚ) else 1)) := by
    unfold reliability_score check_volume_confirmation analyze_market_context
      check_pattern_completion
    cases has_volume <;> norm_num
  refine ⟨p, hp, rfl, rfl, ?_, ?_, ?_⟩ <;> simp only [hform]
  · refine le_trans (min_le_right _ _) ?_
    cases has_volume <;> simp <;> nlinarith
  · refine le_min (by norm_num) ?_
    cases has_volume <;> simp <;> nlinarith
  · exact min_le_left _ _

/-- C8 witness at a concrete singleton pattern list. -/
theorem C8_reliability_bounded_witness :
    (∀ p ∈ [samplePattern],
      0 ≤ p.confidence ∧ p.confidence ≤ 1) ∧
    (∀ pr ∈ calculate_reliability true
        [samplePattern],
      ∃ p ∈ [samplePattern],
        pr.1 = p.id ∧ pr.2 = reliability_score true p.confidence ∧
        pr.2 ≤ p.confidence * (11/10) ∧ 0 ≤ pr.2 ∧ pr.2 ≤ 1) := by
  have hconf : ∀ p ∈ [samplePattern],
      0 ≤ p.confidence ∧ p.confidence ≤ 1 := by
    intro p hp
    rw [List.mem_singleton] at hp
    subst hp
    norm_num [samplePattern]
  exact ⟨hconf, C8_reliability_bounded true _ hconf⟩

/-- C6: an empty portfolio yields the all-zero risk structure with empty
positions and recommendations, and any internal failure (an exception
raised inside the `try`) is converted to the same all-zero structure
instead of propagating to the caller. -/
theorem C6_empty_portfolio_and_failure_fallback :
    (∀ (timeframe : String) (confidence_level : ℚ) (body : Except String RiskResult),
      calculate_portfolio_risk [] timeframe confidence_level body = get_empty_risk_result) ∧
    (get_empty_risk_result.net_exposure = 0 ∧ get_empty_risk_result.gross_exposure = 0 ∧
      get_empty_risk_result.leverage = 0 ∧ get_empty_risk_result.var = 0 ∧
      get_empty_risk_result.expected_shortfall = 0 ∧ get_empty_risk_result.max_drawdown = 0 ∧
      get_empty_risk_result.sharpe_ratio = 0 ∧ get_empty_risk_result.sortino_ratio = 0 ∧
      get_empty_risk_result.calmar_ratio = 0 ∧ get_empty_risk_result.volatility_annual = 0 ∧
      get_empty_risk_result.positions = [] ∧ get_empty_risk_result.recommendations = []) ∧
    (∀ (portfolio : List Position) (timeframe : String) (confidence_level : ℚ)
        (e : String),
      calculate_portfolio_risk portfolio timeframe confidence_level (Except.error e) =
        get_empty_risk_result) := by
  refine ⟨fun _ _ _ => rfl, ?_, fun portfolio _ _ e => ?_⟩
  · exact ⟨rfl, rfl, rfl, rfl, rfl, rfl, rfl, rfl, rfl, rfl, rfl, rfl⟩
  · unfold calculate_portfolio_risk
    split_ifs <;> rfl

/-- C10: the scenario-analysis result has an entry for a name exactly when
that name was requested and is one of the four known scenarios; unknown
names are skipped (logged only) rather than raising. -/
theorem C10_scenario_dispatch (portfolio : List Position)
    (scenarios : List String) (scenario_name : String) :
    (∃ result, (scenario_name, result) ∈ run_scenario_analysis portfolio scenarios) ↔
      scenario_name ∈ scenarios ∧
        (scenario_name = "market_crash" ∨ scenario_name = "high_volatility" ∨
         scenario_name = "trend_reversal" ∨ scenario_name = "correlation_breakdown") := by
  constructor
  · rintro ⟨result, hr⟩
    unfold run_scenario_analysis at hr
    rw [List.mem_filterMap] at hr
    obtain ⟨s, hs, hfs⟩ := hr
    split_ifs at hfs with h1 h2 h3 h4 <;>
      simp only [Option.some.injEq, Prod.mk.injEq] at hfs
    · obtain ⟨hname, -⟩ := hfs
      subst hname
      exact ⟨hs, Or.inl h1⟩
    · obtain ⟨hname, -⟩ := hfs
      subst hname
      exact ⟨hs, Or.inr (Or.inl h2)⟩
    · obtain ⟨hname, -⟩ := hfs
      subst hname
      exact ⟨hs, Or.inr (Or.inr (Or.inl h3))⟩
    · obtain ⟨hname, -⟩ := hfs
      subst hname
      exact ⟨hs, Or.inr (Or.inr (Or.inr h4))⟩
  · rintro ⟨hmem, hcase⟩
    unfold run_scenario_analysis
    rcases hcase with h | h | h | h <;> subst h
    · exact ⟨scenario_market_crash portfolio,
        List.mem_filterMap.mpr ⟨_, hmem, by rw [if_pos rfl]⟩⟩
    · refine ⟨scenario_high_volatility portfolio,
        List.mem_filterMap.mpr ⟨_, hmem, ?_⟩⟩
      rw [if_neg (by decide), if_pos rfl]
    · refine ⟨scenario_trend_reversal portfolio,
        List.mem_filterMap.mpr ⟨_, hmem, ?_⟩⟩
      dsimp only
      rw [if_neg (by decide), if_neg (by decide), if_pos rfl]
    · refine ⟨scenario_correlation_breakdown portfolio,
        List.mem_filterMap.mpr ⟨_, hmem, ?_⟩⟩
      rw [if_neg (by decide), if_neg (by decide), if_neg (by decide), if_pos rfl]

/-- C3 counterexample: in the two-position portfolio `EURUSD`/`GBPUSD`
(correlation `0.7`), the code's correlation risk for `EURUSD` is
`0.7 / 2 = 0.35` (normalized by the *full* portfolio size), not the claim's
mean over the *other* symbols `0.7 / 1 = 0.7`. -/
theorem C3_counterexample :
    calculate_position_correlation_risk "EURUSD"
      [⟨"EURUSD", 1, 1⟩, ⟨"GBPUSD", 1, 1⟩] = 7/20 ∧
    (7/20 : ℚ) ≠ |get_correlation "EURUSD" "GBPUSD"| / 1 := by
  constructor
  · have h1 : ([⟨"EURUSD", 1, 1⟩, ⟨"GBPUSD", 1, 1⟩] : List Position).filter
        (fun p => p.symbol ≠ "EURUSD") = [⟨"GBPUSD", 1, 1⟩] := by decide
    unfold calculate_position_correlation_risk
    rw [h1]
    rw [if_neg (by decide : ¬([⟨"EURUSD", 1, 1⟩, ⟨"GBPUSD", 1, 1⟩] : List Position) = [])]
    rw [List.map_cons, List.map_nil, List.sum_cons, List.sum_nil]
    rw [show |get_correlation "EURUSD" "GBPUSD"| = |(7:ℚ)/10| from rfl,
      abs_of_nonneg (by norm_num : (0:ℚ) ≤ 7/10)]
    norm_num
  · rw [show |get_correlation "EURUSD" "GBPUSD"| = |(7:ℚ)/10| from rfl,
      abs_of_nonneg (by norm_num : (0:ℚ) ≤ 7/10)]
    norm_num

/-- Indexing a mapped zip of two lists at an in-bounds position. -/
theorem map_zip_getD {α β γ : Type*} (l1 : List α) (l2 : List β)
    (f : α × β → γ) (i : ℕ) (d : γ) (h1 : i < l1.length) (h2 : i < l2.length) :
    ((l1.zip l2).map f).getD i d = f (l1[i], l2[i]) := by
  rw [List.getD_eq_getElem?_getD, List.getElem?_map]
  rw [show (l1.zip l2)[i]? = some (l1[i], l2[i]) from by
    rw [List.getElem?_zip_eq_some]
    exact ⟨List.getElem?_eq_getElem h1, List.getElem?_eq_getElem h2⟩]
  rfl

/-- C3 amended: for every position the analyzer computes
`market_value = |size| × current_price`,
`unrealized_pnl = size × (current_price − entry_price)`,
`position_var = market_value × (annual_vol/√252) × z`, where `z` stands
for the external `stats.norm.ppf(0.95)` value, and
`risk_contribution = position_var / n`; the correlation risk is the sum of
absolute correlations to the other-symbol positions divided by the *full*
portfolio size `n` (not by the number of other symbols). -/
theorem C3_amended_position_analysis (portfolio : List Position)
    (current_prices : List ℝ) (z95 : ℝ) (i : ℕ)
    (hlen : current_prices.length = portfolio.length) (hi : i < portfolio.length) :
    ((analyze_positions portfolio current_prices z95).getD i default).market_value =
        |((portfolio.getD i default).position : ℝ)| * current_prices.getD i 0 ∧
    ((analyze_positions portfolio current_prices z95).getD i default).unrealized_pnl =
        ((portfolio.getD i default).position : ℝ) *
          (current_prices.getD i 0 - ((portfolio.getD i default).entry_price : ℚ)) ∧
    ((analyze_positions portfolio current_prices z95).getD i default).position_var =
        ((analyze_positions portfolio current_prices z95).getD i default).market_value *
          ((default_volatilities (portfolio.getD i default).symbol : ℚ) / Real.sqrt 252) *
          z95 ∧
    ((analyze_positions portfolio current_prices z95).getD i default).risk_contribution =
        ((analyze_positions portfolio current_prices z95).getD i default).position_var /
          portfolio.length ∧
    ((analyze_positions portfolio current_prices z95).getD i default).correlation_risk =
        ((portfolio.filter fun q => q.symbol ≠ (portfolio.getD i default).symbol).map
          fun q => |get_correlation (portfolio.getD i default).symbol q.symbol|).sum /
          portfolio.length := by
  have h2 : i < current_prices.length := by rw [hlen]; exact hi
  have hp : portfolio.getD i default = portfolio[i] := by
    rw [List.getD_eq_getElem?_getD, List.getElem?_eq_getElem hi]
    rfl
  have hc : current_prices.getD i 0 = current_prices[i] := by
    rw [List.getD_eq_getElem?_getD, List.getElem?_eq_getElem h2]
    rfl
  have ha : (analyze_positions portfolio current_prices z95).getD i default =
      (fun pc : Position × ℝ =>
        ({ symbol := pc.1.symbol
           position := pc.1.position
           entry_price := pc.1.entry_price
           current_price := pc.2
           market_value := |(pc.1.position : ℝ)| * pc.2
           unrealized_pnl := (pc.1.position : ℝ) * (pc.2 - (pc.1.entry_price : ℚ))
           position_var := |(pc.1.position : ℝ)| * pc.2 * daily_vol pc.1.symbol * z95
           risk_contribution :=
             |(pc.1.position : ℝ)| * pc.2 * daily_vol pc.1.symbol * z95 / portfolio.length
           correlation_risk :=
             calculate_position_correlation_risk pc.1.symbol portfolio } : PositionAnalysis))
        (portfolio[i], current_prices[i]) :=
    map_zip_getD portfolio current_prices _ i default hi h2
  have hnil : ¬portfolio = [] := by
    intro h
    rw [h] at hi
    exact absurd hi (by simp)
  rw [hp, hc, ha]
  refine ⟨rfl, rfl, rfl, rfl, ?_⟩
  dsimp only
  unfold calculate_position_correlation_risk
  rw [if_neg hnil]

/-- C3 amended witness at a concrete two-position portfolio. -/
theorem C3_amended_position_analysis_witness :
    ([(1 : ℝ), 1].length = ([⟨"EURUSD", 1, 1⟩, ⟨"GBPUSD", 1, 1⟩] : List Position).length) ∧
    (0 < ([⟨"EURUSD", 1, 1⟩, ⟨"GBPUSD", 1, 1⟩] : List Position).length) ∧
    (((analyze_positions [⟨"EURUSD", 1, 1⟩, ⟨"GBPUSD", 1, 1⟩] [(1 : ℝ), 1] 1).getD 0
        default).market_value =
      |((([⟨"EURUSD", 1, 1⟩, ⟨"GBPUSD", 1, 1⟩] : List Position).getD 0 default).position : ℝ)| *
        [(1 : ℝ), 1].getD 0 0 ∧
    ((analyze_positions [⟨"EURUSD", 1, 1⟩, ⟨"GBPUSD", 1, 1⟩] [(1 : ℝ), 1] 1).getD 0
        default).unrealized_pnl =
      ((([⟨"EURUSD", 1, 1⟩, ⟨"GBPUSD", 1, 1⟩] : List Position).getD 0 default).position : ℝ) *
        ([(1 : ℝ), 1].getD 0 0 -
          ((([⟨"EURUSD", 1, 1⟩, ⟨"GBPUSD", 1, 1⟩] : List Position).getD 0
            default).entry_price : ℚ)) ∧
    ((analyze_positions [⟨"EURUSD", 1, 1⟩, ⟨"GBPUSD", 1, 1⟩] [(1 : ℝ), 1] 1).getD 0
        default).position_var =
      ((analyze_positions [⟨"EURUSD", 1, 1⟩, ⟨"GBPUSD", 1, 1⟩] [(1 : ℝ), 1] 1).getD 0
          default).market_value *
        ((default_volatilities
            (([⟨"EURUSD", 1, 1⟩, ⟨"GBPUSD", 1, 1⟩] : List Position).getD 0
              default).symbol : ℚ) / Real.sqrt 252) * 1 ∧
    ((analyze_positions [⟨"EURUSD", 1, 1⟩, ⟨"GBPUSD", 1, 1⟩] [(1 : ℝ), 1] 1).getD 0
        default).risk_contribution =
      ((analyze_positions [⟨"EURUSD", 1, 1⟩, ⟨"GBPUSD", 1, 1⟩] [(1 : ℝ), 1] 1).getD 0
          default).position_var /
        ([⟨"EURUSD", 1, 1⟩, ⟨"GBPUSD", 1, 1⟩] : List Position).length ∧
    ((analyze_positions [⟨"EURUSD", 1, 1⟩, ⟨"GBPUSD", 1, 1⟩] [(1 : ℝ), 1] 1).getD 0
        default).correlation_risk =
      ((([⟨"EURUSD", 1, 1⟩, ⟨"GBPUSD", 1, 1⟩] : List Position).filter fun q =>
          q.symbol ≠ (([⟨"EURUSD", 1, 1⟩, ⟨"GBPUSD", 1, 1⟩] : List Position).getD 0
            default).symbol).map fun q =>
        |get_correlation
          ((([⟨"EURUSD", 1, 1⟩, ⟨"GBPUSD", 1, 1⟩] : List Position).getD 0
            default).symbol) q.symbol|).sum /
        ([⟨"EURUSD", 1, 1⟩, ⟨"GBPUSD", 1, 1⟩] : List Position).length) :=
  ⟨rfl, by norm_num,
    C3_amended_position_analysis [⟨"EURUSD", 1, 1⟩, ⟨"GBPUSD", 1, 1⟩] [(1 : ℝ), 1] 1 0
      rfl (by norm_num)⟩

/-- C4: the correlation matrix built by the scenario engine is symmetric
with unit diagonal; the routine is a total function of the draws (its
outputs are well-defined reals), on Cholesky failure it falls back to the
independent draws, and on success it applies the Cholesky factor — in both
cases scaling each component by the symbol's daily volatility. -/
theorem C4_correlated_returns_safety (portfolio : List Position)
    (hne : portfolio ≠ []) :
    (∀ i j, correlation_matrix portfolio i j = correlation_matrix portfolio j i) ∧
    (∀ i, correlation_matrix portfolio i i = 1) ∧
    (∀ independent_returns,
      generate_correlated_returns portfolio none independent_returns =
        fun i => independent_returns i * daily_vol (portfolio.get i).symbol) ∧
    (∀ chol_matrix independent_returns,
      generate_correlated_returns portfolio (some chol_matrix) independent_returns =
        fun i => chol_matrix.mulVec independent_returns i *
          daily_vol (portfolio.get i).symbol) := by
  refine ⟨?_, ?_, fun _ => rfl, fun _ _ => rfl⟩
  · intro i j
    unfold correlation_matrix
    rw [Matrix.of_apply, Matrix.of_apply]
    rcases lt_trichotomy (i : ℕ) (j : ℕ) with h | h | h
    · have hij : i ≠ j := fun he => absurd (congrArg Fin.val he) (Nat.ne_of_lt h)
      rw [if_neg hij, if_pos h, if_neg hij.symm, if_neg (Nat.not_lt_of_gt h)]
    · have hij : i = j := Fin.ext h
      rw [if_pos hij, if_pos hij.symm]
    · have hij : i ≠ j := fun he => absurd (congrArg Fin.val he) (Nat.ne_of_gt h)
      rw [if_neg hij, if_neg (Nat.not_lt_of_gt h), if_neg hij.symm, if_pos h]
  · intro i
    unfold correlation_matrix
    rw [Matrix.of_apply, if_pos rfl]

/-- C4 witness at a concrete one-position portfolio. -/
theorem C4_correlated_returns_safety_witness :
    (([⟨"EURUSD", 1, 1⟩] : List Position) ≠ []) ∧
    ((∀ i j, correlation_matrix [⟨"EURUSD", 1, 1⟩] i j =
        correlation_matrix [⟨"EURUSD", 1, 1⟩] j i) ∧
    (∀ i, correlation_matrix [⟨"EURUSD", 1, 1⟩] i i = 1) ∧
    (∀ independent_returns,
      generate_correlated_returns [⟨"EURUSD", 1, 1⟩] none independent_returns =
        fun i => independent_returns i *
          daily_vol (([⟨"EURUSD", 1, 1⟩] : List Position).get i).symbol) ∧
    (∀ chol_matrix independent_returns,
      generate_correlated_returns [⟨"EURUSD", 1, 1⟩] (some chol_matrix)
          independent_returns =
        fun i => chol_matrix.mulVec independent_returns i *
          daily_vol (([⟨"EURUSD", 1, 1⟩] : List Position).get i).symbol)) :=
  ⟨by decide, C4_correlated_returns_safety [⟨"EURUSD", 1, 1⟩] (by decide)⟩

/-- C7: every emitted price level has `touches ≥ 2` (noise and singleton
clusters are dropped), level = cluster mean, strength = cluster size ×
intra-cluster standard deviation, touches = cluster cardinality; and every
support/resistance pattern built from a clustered level has confidence
`min(0.9, strength/10)`. -/
theorem C7_cluster_levels_properties :
    (∀ (levels : List ℚ) (labels : List ℤ) (lvl : ℚ) (str : ℝ) (t : ℕ),
      (lvl, str, t) ∈ cluster_levels levels labels →
        2 ≤ t ∧ ∃ cluster_id, cluster_id ≠ -1 ∧
          t = (cluster_points levels labels cluster_id).length ∧
          lvl = listMean (cluster_points levels labels cluster_id) ∧
          str = (t : ℝ) * listStd (cluster_points levels labels cluster_id)) ∧
    (∀ (high_values low_values : List ℚ) (high_labels low_labels : List ℤ)
        (p : SRPattern),
      p ∈ detect_support_resistance high_values low_values high_labels low_labels →
        ∃ lvl str t,
          ((lvl, str, t) ∈ cluster_levels high_values high_labels ∨
           (lvl, str, t) ∈ cluster_levels low_values low_labels) ∧
          p.confidence = min (9/10) (str / 10) ∧ p.level = (lvl : ℝ) ∧
          p.strength = str ∧ p.touches = t ∧ 2 ≤ t) := by
  have hpart1 : ∀ (levels : List ℚ) (labels : List ℤ) (lvl : ℚ) (str : ℝ) (t : ℕ),
      (lvl, str, t) ∈ cluster_levels levels labels →
        2 ≤ t ∧ ∃ cluster_id, cluster_id ≠ -1 ∧
          t = (cluster_points levels labels cluster_id).length ∧
          lvl = listMean (cluster_points levels labels cluster_id) ∧
          str = (t : ℝ) * listStd (cluster_points levels labels cluster_id) := by
    intro levels labels lvl str t hmem
    unfold cluster_levels at hmem
    rw [List.mem_filterMap] at hmem
    obtain ⟨cluster_id, hcid, hf⟩ := hmem
    by_cases h1 : cluster_id = -1
    · rw [if_pos h1] at hf
      exact absurd hf (by simp)
    · rw [if_neg h1] at hf
      dsimp only at hf
      by_cases h2 : 2 ≤ (cluster_points levels labels cluster_id).length
      · rw [if_pos h2] at hf
        have heq := Option.some.inj hf
        simp only [Prod.mk.injEq] at heq
        obtain ⟨he1, he2, he3⟩ := heq
        subst he3
        refine ⟨h2, cluster_id, h1, rfl, he1.symm, ?_⟩
        exact he2.symm
      · rw [if_neg h2] at hf
        exact absurd hf (by simp)
  refine ⟨hpart1, ?_⟩
  intro high_values low_values high_labels low_labels p hp
  unfold detect_support_resistance at hp
  rw [List.mem_append] at hp
  rcases hp with hp | hp
  · by_cases hlen : 2 < high_values.length
    · rw [if_pos hlen] at hp
      rw [List.mem_map] at hp
      obtain ⟨lst, hlst, hpl⟩ := hp
      have h2t := (hpart1 high_values high_labels lst.1 lst.2.1 lst.2.2 hlst).1
      subst hpl
      exact ⟨lst.1, lst.2.1, lst.2.2, Or.inl hlst, rfl, rfl, rfl, rfl, h2t⟩
    · rw [if_neg hlen] at hp
      exact absurd hp (by simp)
  · by_cases hlen : 2 < low_values.length
    · rw [if_pos hlen] at hp
      rw [List.mem_map] at hp
      obtain ⟨lst, hlst, hpl⟩ := hp
      have h2t := (hpart1 low_values low_labels lst.1 lst.2.1 lst.2.2 hlst).1
      subst hpl
      exact ⟨lst.1, lst.2.1, lst.2.2, Or.inr hlst, rfl, rfl, rfl, rfl, h2t⟩
    · rw [if_neg hlen] at hp
      exact absurd hp (by simp)

/-- C7 witness: a concrete cluster of two equal highs and a concrete
three-point resistance cluster. -/
theorem C7_cluster_levels_properties_witness :
    ((listMean (cluster_points [1, 1] [0, 0] 0),
        ((cluster_points [1, 1] [0, 0] 0).length : ℝ) *
          listStd (cluster_points [1, 1] [0, 0] 0),
        (cluster_points [1, 1] [0, 0] 0).length) ∈ cluster_levels [1, 1] [0, 0]) ∧
    (2 ≤ (cluster_points [1, 1] [0, 0] 0).length ∧ ∃ cluster_id, cluster_id ≠ -1 ∧
      (cluster_points [1, 1] [0, 0] 0).length =
        (cluster_points [1, 1] [0, 0] cluster_id).length ∧
      listMean (cluster_points [1, 1] [0, 0] 0) =
        listMean (cluster_points [1, 1] [0, 0] cluster_id) ∧
      ((cluster_points [1, 1] [0, 0] 0).length : ℝ) *
          listStd (cluster_points [1, 1] [0, 0] 0) =
        (((cluster_points [1, 1] [0, 0] 0).length : ℕ) : ℝ) *
          listStd (cluster_points [1, 1] [0, 0] cluster_id)) ∧
    (resistance_pattern (listMean (cluster_points [1, 1, 1] [0, 0, 0] 0))
        (((cluster_points [1, 1, 1] [0, 0, 0] 0).length : ℝ) *
          listStd (cluster_points [1, 1, 1] [0, 0, 0] 0))
        (cluster_points [1, 1, 1] [0, 0, 0] 0).length ∈
      detect_support_resistance [1, 1, 1] [] [0, 0, 0] []) ∧
    (∃ lvl str t,
      ((lvl, str, t) ∈ cluster_levels [1, 1, 1] [0, 0, 0] ∨
       (lvl, str, t) ∈ cluster_levels [] []) ∧
      (resistance_pattern (listMean (cluster_points [1, 1, 1] [0, 0, 0] 0))
        (((cluster_points [1, 1, 1] [0, 0, 0] 0).length : ℝ) *
          listStd (cluster_points [1, 1, 1] [0, 0, 0] 0))
        (cluster_points [1, 1, 1] [0, 0, 0] 0).length).confidence =
          min (9/10) (str / 10) ∧
      (resistance_pattern (listMean (cluster_points [1, 1, 1] [0, 0, 0] 0))
        (((cluster_points [1, 1, 1] [0, 0, 0] 0).length : ℝ) *
          listStd (cluster_points [1, 1, 1] [0, 0, 0] 0))
        (cluster_points [1, 1, 1] [0, 0, 0] 0).length).level = (lvl : ℝ) ∧
      (resistance_pattern (listMean (cluster_points [1, 1, 1] [0, 0, 0] 0))
        (((cluster_points [1, 1, 1] [0, 0, 0] 0).length : ℝ) *
          listStd (cluster_points [1, 1, 1] [0, 0, 0] 0))
        (cluster_points [1, 1, 1] [0, 0, 0] 0).length).strength = str ∧
      (resistance_pattern (listMean (cluster_points [1, 1, 1] [0, 0, 0] 0))
        (((cluster_points [1, 1, 1] [0, 0, 0] 0).length : ℝ) *
          listStd (cluster_points [1, 1, 1] [0, 0, 0] 0))
        (cluster_points [1, 1, 1] [0, 0, 0] 0).length).touches = t ∧ 2 ≤ t) := by
  have hmem1 : (listMean (cluster_points [1, 1] [0, 0] 0),
      ((cluster_points [1, 1] [0, 0] 0).length : ℝ) *
        listStd (cluster_points [1, 1] [0, 0] 0),
      (cluster_points [1, 1] [0, 0] 0).length) ∈ cluster_levels [1, 1] [0, 0] := by
    unfold cluster_levels
    rw [List.mem_filterMap]
    refine ⟨0, by decide, ?_⟩
    rw [if_neg (by decide : ¬(0 : ℤ) = -1)]
    dsimp only
    rw [if_pos (by decide : 2 ≤ (cluster_points [1, 1] [0, 0] 0).length)]
  have hmem3 : ((listMean (cluster_points [1, 1, 1] [0, 0, 0] 0),
      ((cluster_points [1, 1, 1] [0, 0, 0] 0).length : ℝ) *
        listStd (cluster_points [1, 1, 1] [0, 0, 0] 0),
      (cluster_points [1, 1, 1] [0, 0, 0] 0).length)) ∈
        cluster_levels [1, 1, 1] [0, 0, 0] := by
    unfold cluster_levels
    rw [List.mem_filterMap]
    refine ⟨0, by decide, ?_⟩
    rw [if_neg (by decide : ¬(0 : ℤ) = -1)]
    dsimp only
    rw [if_pos (by decide : 2 ≤ (cluster_points [1, 1, 1] [0, 0, 0] 0).length)]
  have hmem2 : resistance_pattern (listMean (cluster_points [1, 1, 1] [0, 0, 0] 0))
      (((cluster_points [1, 1, 1] [0, 0, 0] 0).length : ℝ) *
        listStd (cluster_points [1, 1, 1] [0, 0, 0] 0))
      (cluster_points [1, 1, 1] [0, 0, 0] 0).length ∈
        detect_support_resistance [1, 1, 1] [] [0, 0, 0] [] := by
    unfold detect_support_resistance
    rw [List.mem_append]
    left
    rw [if_pos (by decide : 2 < ([1, 1, 1] : List ℚ).length)]
    rw [List.mem_map]
    exact ⟨_, hmem3, rfl⟩
  exact ⟨hmem1, C7_cluster_levels_properties.1 [1, 1] [0, 0] _ _ _ hmem1,
    hmem2, C7_cluster_levels_properties.2 [1, 1, 1] [] [0, 0, 0] [] _ hmem2⟩

/-- Correlation of a symbol with itself is `1.0`. -/
theorem get_correlation_self (s : String) : get_correlation s s = 1 := by
  unfold get_correlation
  rw [if_pos rfl]

/-- Daily volatilities are nonnegative. -/
theorem daily_vol_nonneg (s : String) : 0 ≤ daily_vol s := by
  unfold daily_vol
  apply div_nonneg _ (Real.sqrt_nonneg _)
  have h : (0 : ℚ) ≤ default_volatilities s := by
    unfold default_volatilities
    split_ifs <;> norm_num
  exact_mod_cast h

/-- The default `EURUSD` daily volatility is positive. -/
theorem daily_vol_eurusd_pos : 0 < daily_vol "EURUSD" := by
  unfold daily_vol
  apply div_pos
  · rw [show default_volatilities "EURUSD" = 8/100 from rfl]
    norm_num
  · exact Real.sqrt_pos.mpr (by norm_num)

/-- Parametric VaR of a single position: no covariance term. -/
theorem calculate_parametric_var_single (p : Position) (t : ℕ) (z : ℝ) :
    calculate_parametric_var [p] t z =
      Real.sqrt (max 0 (((position_value p : ℚ) * daily_vol p.symbol)^2)) *
        Real.sqrt t * z := by
  unfold calculate_parametric_var correlation_adjustment position_variance_term
  simp

/-- Parametric VaR of a two-position portfolio on one symbol: the ordered
double loop contributes the `2·corr·vol²·value1·value2` term twice. -/
theorem calculate_parametric_var_pair_same (s : String) (q1 q2 e1 e2 : ℚ)
    (t : ℕ) (z : ℝ) :
    calculate_parametric_var [⟨s, q1, e1⟩, ⟨s, q2, e2⟩] t z =
      Real.sqrt (max 0 (((|q1| * e1 : ℚ) * daily_vol s)^2 +
        ((|q2| * e2 : ℚ) * daily_vol s)^2 +
        4 * daily_vol s * daily_vol s * ((|q1| * e1 : ℚ) : ℝ) * ((|q2| * e2 : ℚ) : ℝ))) *
        Real.sqrt t * z := by
  unfold calculate_parametric_var
  have hadj : correlation_adjustment [⟨s, q1, e1⟩, ⟨s, q2, e2⟩] =
      4 * daily_vol s * daily_vol s * ((|q1| * e1 : ℚ) : ℝ) * ((|q2| * e2 : ℚ) : ℝ) := by
    unfold correlation_adjustment
    simp only [List.length_cons, List.length_nil, Nat.zero_add, Nat.reduceAdd,
      Finset.sum_range_succ, Finset.sum_range_zero, List.getD, List.get?_cons_zero,
      List.get?_cons_succ, Option.getD_some, ne_eq, not_true_eq_false, if_false,
      position_value]
    rw [get_correlation_self]
    push_cast
    norm_num
    ring
  rw [hadj]
  have hsum : (([⟨s, q1, e1⟩, ⟨s, q2, e2⟩] : List Position).map position_variance_term).sum =
      ((|q1| * e1 : ℚ) * daily_vol s)^2 + ((|q2| * e2 : ℚ) * daily_vol s)^2 := by
    simp [position_variance_term, position_value]
  rw [hsum]

/-- C1 counterexample: two `EURUSD` positions of notional `1` each (pairwise
correlation `1.0`) do *not* have the parametric VaR of a single `EURUSD`
position of notional `2`: the ordered-pair covariance loop double-counts
the cross term (`4·corr·vol²·v1·v2` instead of `2·…`), giving
`√6·vol·√t·z` versus `2·vol·√t·z`. -/
theorem C1_counterexample :
    get_correlation "EURUSD" "EURUSD" = 1 ∧
    position_value ⟨"EURUSD", 1, 2⟩ =
      position_value ⟨"EURUSD", 1, 1⟩ + position_value ⟨"EURUSD", 1, 1⟩ ∧
    calculate_parametric_var [⟨"EURUSD", 1, 1⟩, ⟨"EURUSD", 1, 1⟩] 1 1 ≠
      calculate_parametric_var [⟨"EURUSD", 1, 2⟩] 1 1 := by
  have hd : 0 < daily_vol "EURUSD" := daily_vol_eurusd_pos
  refine ⟨get_correlation_self _, by norm_num [position_value], ?_⟩
  intro heq
  have hA : calculate_parametric_var [(⟨"EURUSD", 1, 1⟩ : Position), ⟨"EURUSD", 1, 1⟩] 1 1 =
      Real.sqrt (max 0 (6 * daily_vol "EURUSD" ^ 2)) := by
    rw [calculate_parametric_var_pair_same]
    rw [show ((1 : ℕ) : ℝ) = 1 from by norm_num, Real.sqrt_one, mul_one, mul_one]
    congr 2
    push_cast
    rw [abs_one]
    ring
  have hB : calculate_parametric_var [(⟨"EURUSD", 1, 2⟩ : Position)] 1 1 =
      Real.sqrt (max 0 (4 * daily_vol "EURUSD" ^ 2)) := by
    rw [calculate_parametric_var_single]
    rw [show ((1 : ℕ) : ℝ) = 1 from by norm_num, Real.sqrt_one, mul_one, mul_one]
    congr 2
    rw [show position_value ⟨"EURUSD", 1, 2⟩ = 2 from by norm_num [position_value]]
    push_cast
    ring
  rw [hA, hB, max_eq_right (by positivity), max_eq_right (by positivity)] at heq
  have h6 : Real.sqrt (6 * daily_vol "EURUSD" ^ 2) ^ 2 = 6 * daily_vol "EURUSD" ^ 2 :=
    Real.sq_sqrt (by positivity)
  have h4 : Real.sqrt (4 * daily_vol "EURUSD" ^ 2) ^ 2 = 4 * daily_vol "EURUSD" ^ 2 :=
    Real.sq_sqrt (by positivity)
  have hsq : (6 : ℝ) * daily_vol "EURUSD" ^ 2 = 4 * daily_vol "EURUSD" ^ 2 := by
    rw [← h6, ← h4, heq]
  nlinarith [hd]

/-- C1 amended: with the code's ordered-pair covariance loop (which counts
each unordered pair twice, i.e. `4·corr·vol1·vol2·v1·v2` in total), the
parametric VaR of a perfectly correlated two-position portfolio is at
least — rather than equal to — the parametric VaR of the single combined
position, for every timeframe and nonnegative z-score. -/
theorem C1_amended_perfect_corr_superadditive (s : String) (q1 q2 e1 e2 : ℚ)
    (t : ℕ) (z : ℝ) (hz : 0 ≤ z) (he1 : 0 ≤ e1) (he2 : 0 ≤ e2) :
    calculate_parametric_var [⟨s, 1, |q1| * e1 + |q2| * e2⟩] t z ≤
      calculate_parametric_var [⟨s, q1, e1⟩, ⟨s, q2, e2⟩] t z := by
  rw [calculate_parametric_var_single, calculate_parametric_var_pair_same]
  refine mul_le_mul_of_nonneg_right (mul_le_mul_of_nonneg_right ?_ (Real.sqrt_nonneg _)) hz
  apply Real.sqrt_le_sqrt
  apply max_le_max le_rfl
  rw [show position_value ⟨s, 1, |q1| * e1 + |q2| * e2⟩ = |q1| * e1 + |q2| * e2 from by
    norm_num [position_value]]
  have ha : (0 : ℝ) ≤ |(q1 : ℝ)| * (e1 : ℝ) :=
    mul_nonneg (abs_nonneg _) (by exact_mod_cast he1)
  have hb : (0 : ℝ) ≤ |(q2 : ℝ)| * (e2 : ℝ) :=
    mul_nonneg (abs_nonneg _) (by exact_mod_cast he2)
  push_cast
  nlinarith [mul_nonneg (mul_nonneg ha hb) (sq_nonneg (daily_vol s)),
    sq_nonneg (daily_vol s), mul_nonneg ha hb]

/-- C1 amended witness at two unit `EURUSD` positions. -/
theorem C1_amended_perfect_corr_superadditive_witness :
    (0 : ℝ) ≤ 1 ∧ (0 : ℚ) ≤ 1 ∧
    calculate_parametric_var [⟨"EURUSD", 1, |(1 : ℚ)| * 1 + |(1 : ℚ)| * 1⟩] 1 1 ≤
      calculate_parametric_var [⟨"EURUSD", 1, 1⟩, ⟨"EURUSD", 1, 1⟩] 1 1 :=
  ⟨by norm_num, by norm_num,
    C1_amended_perfect_corr_superadditive "EURUSD" 1 1 1 1 1 1
      (by norm_num) (by norm_num) (by norm_num)⟩
